import Mathlib

/-!
Verification development for the raiko request-actor core
(`src/reqactor/src/backend.rs`).

The embedding below translates the request actor's control loop, its
external-action and internal-signal handlers, the proving supervisor's
entry path, the spawned proving task and its supervising watcher, and the
batch-guest-input wire encoding into Lean.

External collaborators (the status store `raiko_reqpool::Pool`, the proof
engine, and the bincode/zlib codecs) live outside `src/`; they are
modelled from the spec's interface contracts (spec sections 6 and 4.4)
and are clearly marked as such in their doc comments.  Store operations
can fail transiently, which is modelled by an explicit fault schedule:
each store operation consumes one flag of the schedule and fails exactly
when that flag is `true` (an empty schedule means no faults).

Each handler returns, besides its result and the updated store, the list
of effects that the *control-loop task itself* performs, in order:
store operations it issues, engine calls it makes, tasks it spawns,
inline sleeps it awaits, and loop-side waits.  Effects performed inside
a spawned task (permit acquisition, the engine proving call, the
completion status write) appear in that task's own function
(`proverTask`, `watcherTask`), never in the loop-side trace.
-/

namespace Raiko

/-- Lifecycle status of a request (`raiko_reqpool::Status`).  `Success`
carries the proof artifact and `Failed` the error message, both modelled
as strings.  The `StatusWithContext` wrapper only adds a timestamp,
which no control decision in `backend.rs` depends on, so it is elided. -/
inductive Status where
  | Registered : Status
  | WorkInProgress : Status
  | Success : String → Status
  | Cancelled : Status
  | Failed : String → Status
deriving DecidableEq

/-- Identifying fields of a single-proof request key, used by
`Backend::cancel` (backend.rs lines 307-318) to key the engine-level
abort: chain id, block number, block hash and proof type.  Numeric
stand-ins are used for the external field types; `proof_type` is the
discriminant of the external `ProofType` enum. -/
structure SingleProofKey where
  chain_id : Nat
  block_number : Nat
  block_hash : Nat
  proof_type : Nat
deriving DecidableEq

/-- Request key, one variant per request kind (`raiko_reqpool::RequestKey`).
Only the single-proof variant's fields are inspected by the code under
verification (for the engine-level cancel), so the other variants carry
an opaque numeric identifier. -/
inductive RequestKey where
  | GuestInput : Nat → RequestKey
  | BatchGuestInput : Nat → RequestKey
  | SingleProof : SingleProofKey → RequestKey
  | Aggregation : Nat → RequestKey
  | BatchProof : Nat → RequestKey
deriving DecidableEq

/-- Request entity, the kind-specific payload (`raiko_reqpool::RequestEntity`).
The actor only dispatches on the variant; the payloads are opaque here. -/
inductive RequestEntity where
  | SingleProof : Nat → RequestEntity
  | Aggregation : Nat → RequestEntity
  | BatchProof : Nat → RequestEntity
  | GuestInput : Nat → RequestEntity
  | BatchGuestInput : Nat → RequestEntity
deriving DecidableEq

/-- External command (`crate::Action`): `Prove` or `Cancel`. -/
inductive Action where
  | Prove : RequestKey → RequestEntity → Action
  | Cancel : RequestKey → Action
deriving DecidableEq

/-- The `Action::request_key` accessor used by `Backend::serve` (line 83). -/
def Action.request_key : Action → RequestKey
  | .Prove k _ => k
  | .Cancel k => k

/-- Modelled from the spec: the Status Store client (`raiko_reqpool::Pool`,
outside `src/`), per spec section 6 a keyed mapping consumed through
`get_status`, `get`, `add` and `update_status`, any of which may fail
with a store I/O error.  `entries` is the keyed mapping; `faults` is the
transient-failure schedule: each operation consumes one flag and fails
exactly when it is `true` (operations beyond the schedule succeed). -/
structure Pool where
  entries : RequestKey → Option (RequestEntity × Status)
  faults : List Bool

/-- Consume the next fault flag of the schedule. -/
def Pool.popFault (p : Pool) : Bool × Pool :=
  match p.faults with
  | [] => (false, p)
  | f :: rest => (f, { p with faults := rest })

/-- Modelled from the spec: `get_status(key) -> Result<Option<Status>>`. -/
def Pool.get_status (p : Pool) (k : RequestKey) : Except String (Option Status) × Pool :=
  let (f, p1) := p.popFault
  if f then (.error "store read error", p1)
  else (.ok ((p1.entries k).map Prod.snd), p1)

/-- Modelled from the spec: `get(key) -> Result<Option<(Entity, Status)>>`. -/
def Pool.get (p : Pool) (k : RequestKey) : Except String (Option (RequestEntity × Status)) × Pool :=
  let (f, p1) := p.popFault
  if f then (.error "store read error", p1)
  else (.ok (p1.entries k), p1)

/-- Modelled from the spec: `add(key, entity, status)` overwrites the
entry under `key` (spec section 4.4: "write a fresh Registered status
plus the entity to the store under key"; section 4.2: "re-register
(overwrite with a fresh Registered status)"). -/
def Pool.add (p : Pool) (k : RequestKey) (e : RequestEntity) (s : Status) :
    Except String Unit × Pool :=
  let (f, p1) := p.popFault
  if f then (.error "store write error", p1)
  else (.ok (), { p1 with entries := fun k' => if k' = k then some (e, s) else p1.entries k' })

/-- Modelled from the spec: `update_status(key, status)` replaces the
status of the existing entry, keeping its entity.  A failed write leaves
the store unchanged. -/
def Pool.update_status (p : Pool) (k : RequestKey) (s : Status) :
    Except String Unit × Pool :=
  let (f, p1) := p.popFault
  if f then (.error "store write error", p1)
  else (.ok (),
    { p1 with entries := fun k' =>
        if k' = k then (p1.entries k').map (fun es => (es.1, s)) else p1.entries k' })

/-- Effects performed by the actor code, in program order.  Loop-side
traces and the spawned tasks' traces use the same alphabet.  A store
effect records the operation as *attempted*, whether or not the fault
schedule made it fail. -/
inductive Effect where
  | storeWrite : RequestKey → Status → Effect
  | storeAdd : RequestKey → RequestEntity → Status → Effect
  | engineCancel : Nat → Nat → Nat → Nat → Nat → Effect
  | engineProve : RequestKey → Effect
  | spawnProverTask : RequestKey → Effect
  | spawnWatcherTask : RequestKey → Effect
  | spawnSignalRetryTask : RequestKey → Effect
  | sleepSeconds : Nat → Effect
  | awaitPermitAcquired : Effect
  | acquirePermit : Effect
  | signalPermitAcquired : Effect
  | sendReply : Effect
deriving DecidableEq

/-- Substring test, modelling Rust's `str::contains` used at backend.rs
line 320 to recognize the "No data for query" engine error. -/
def strContains (hay pat : String) : Bool :=
  (List.range (hay.toList.length + 1)).any fun i => pat.toList.isPrefixOf (hay.toList.drop i)

/-- `Backend::register` (backend.rs lines 261-276): write a fresh
`Registered` status plus the entity to the store; propagate any store
write error to the caller. -/
def register (p : Pool) (request_key : RequestKey) (request_entity : RequestEntity) :
    Except String Status × Pool × List Effect :=
  let st := Status.Registered
  match p.add request_key request_entity st with
  | (.error err, p1) => (.error err, p1, [Effect.storeAdd request_key request_entity st])
  | (.ok _, p1) => (.ok st, p1, [Effect.storeAdd request_key request_entity st])

/-- The repeated "mark the request as cancelled in the pool" tail of
`Backend::cancel` (backend.rs lines 292-294, 303-305, 331-334, 337-349):
write `Cancelled`, propagating a store write error, and return it. -/
def markCancelled (p : Pool) (request_key : RequestKey) (effs : List Effect) :
    Except String Status × Pool × List Effect :=
  match p.update_status request_key Status.Cancelled with
  | (.error err, p1) => (.error err, p1, effs ++ [Effect.storeWrite request_key Status.Cancelled])
  | (.ok _, p1) => (.ok Status.Cancelled, p1, effs ++ [Effect.storeWrite request_key Status.Cancelled])

/-- `Backend::cancel` (backend.rs lines 278-352).  `engineCancelResp` is
the response the external proof engine's `cancel_proof` would give if
invoked (it is only consulted on the single-proof work-in-progress arm).
The four non-single-proof key variants behave identically (lines
302-306, 336-350): they mark the request cancelled without an
engine-level abort. -/
def cancel (engineCancelResp : Except String Unit) (p : Pool) (request_key : RequestKey)
    (old_status : Status) : Except String Status × Pool × List Effect :=
  if old_status ≠ Status.Registered ∧ old_status ≠ Status.WorkInProgress then
    (.ok old_status, p, [])
  else if old_status = Status.Registered then
    markCancelled p request_key []
  else
    match request_key with
    | RequestKey.SingleProof key =>
      let abortEffect := Effect.engineCancel key.proof_type key.chain_id key.block_number
        key.block_hash (key.proof_type % 256)
      match engineCancelResp with
      | .ok _ => markCancelled p request_key [abortEffect]
      | .error e =>
        if strContains e "No data for query" then
          markCancelled p request_key [abortEffect]
        else
          (.error ("failed to cancel proof: " ++ e), p, [abortEffect])
    | _ => markCancelled p request_key []

/-- `Backend::handle_external_action` (backend.rs lines 114-172). -/
def handle_external_action (engineCancelResp : Except String Unit) (p : Pool) (action : Action) :
    Except String Status × Pool × List Effect :=
  match action with
  | .Prove request_key request_entity =>
    match p.get_status request_key with
    | (.ok none, p1) => register p1 request_key request_entity
    | (.ok (some status), p1) =>
      match status with
      | .Registered | .WorkInProgress | .Success _ => (.ok status, p1, [])
      | .Cancelled => register p1 request_key request_entity
      | .Failed _ => register p1 request_key request_entity
    | (.error err, p1) => (.error err, p1, [])
  | .Cancel request_key =>
    match p.get_status request_key with
    | (.ok none, p1) => (.error "request is not in pool", p1, [])
    | (.ok (some status), p1) =>
      match status with
      | .Registered | .WorkInProgress => cancel engineCancelResp p1 request_key status
      | .Failed _ | .Cancelled | .Success _ => (.ok status, p1, [])
    | (.error err, p1) => (.error err, p1, [])

/-- Outcome of the synchronous entry part of `Backend::prove`
(backend.rs lines 434-533), as observed by the control loop. -/
inductive ProveOutcome where
  | panicked : String → ProveOutcome
  | skipped : ProveOutcome
  | writeFailed : ProveOutcome
  | started : ProveOutcome
deriving DecidableEq

/-- Entry path of `Backend::prove` (backend.rs lines 441-533), executed
on the control-loop task.  Lines 441-446 read the status and call
`.unwrap().unwrap()` on the result, so a store read failure or an absent
entry panics the actor task.  Line 447 aborts when the status is
`Success` or `WorkInProgress`.  Lines 453-462 write `WorkInProgress` and
abort on write failure.  Lines 469-529 spawn the proving task and its
supervising watcher, and line 532 awaits, still on the control loop, the
signal that the spawned task has acquired an admission-gate permit. -/
def prove (p : Pool) (request_key : RequestKey) : ProveOutcome × Pool × List Effect :=
  match p.get_status request_key with
  | (.error err, p1) =>
    (.panicked ("called Result.unwrap on an Err value: " ++ err), p1, [])
  | (.ok none, p1) =>
    (.panicked "called Option.unwrap on a None value", p1, [])
  | (.ok (some pool_status), p1) =>
    match pool_status with
    | .Success _ | .WorkInProgress => (.skipped, p1, [])
    | _ =>
      match p1.update_status request_key Status.WorkInProgress with
      | (.error _, p2) => (.writeFailed, p2, [Effect.storeWrite request_key Status.WorkInProgress])
      | (.ok _, p2) =>
        (.started, p2,
          [Effect.storeWrite request_key Status.WorkInProgress,
           Effect.spawnProverTask request_key,
           Effect.spawnWatcherTask request_key,
           Effect.awaitPermitAcquired])

/-- Mapping of the proof-engine result to the resulting status
(backend.rs lines 478-481): success becomes `Success{proof}` and failure
`Failed{error}`. -/
def provenStatus : Except String String → Status
  | .ok proof => Status.Success proof
  | .error e => Status.Failed e

/-- Body of the spawned proving task (backend.rs lines 469-506):
acquire an admission-gate permit, signal the acquisition back to the
dispatching path, run the kind-specific proving function (its result is
the `engineResult` oracle parameter), and unconditionally write the
resulting status (a write failure is only logged, leaving the store
unchanged). -/
def proverTask (engineResult : Except String String) (request_key : RequestKey) (p : Pool) :
    Pool × List Effect :=
  let st := provenStatus engineResult
  ((p.update_status request_key st).2,
   [Effect.acquirePermit, Effect.signalPermitAcquired, Effect.engineProve request_key,
    Effect.storeWrite request_key st])

/-- How the spawned proving task's `JoinHandle` resolved, as observed by
the watcher task (backend.rs line 511): normal return, a panic (the
`e.is_panic()` branch, carrying the join error's display string), or
external cancellation of the task (the remaining join-error case, which
the watcher only logs; nothing in this code aborts the handle). -/
inductive JoinOutcome where
  | finished : JoinOutcome
  | panicked : String → JoinOutcome
  | aborted : JoinOutcome
deriving DecidableEq

/-- Body of the supervising watcher task (backend.rs lines 508-529): if
the proving task's join resolved as a panic, write
`Failed{error: <join error message>}` for the request key (a failure of
that write is only logged); otherwise do nothing but log. -/
def watcherTask (joinOutcome : JoinOutcome) (request_key : RequestKey) (p : Pool) :
    Pool × List Effect :=
  match joinOutcome with
  | .finished => (p, [])
  | .aborted => (p, [])
  | .panicked msg =>
    let st := Status.Failed msg
    ((p.update_status request_key st).2, [Effect.storeWrite request_key st])

/-- Outcome of one internal-signal handling step as observed by the
control loop: normal completion, or a panic that propagates out of the
handler (and hence out of the loop task). -/
inductive InternalOutcome where
  | normal : InternalOutcome
  | panicked : String → InternalOutcome
deriving DecidableEq

/-- Shared tail of the five `Registered` dispatch arms of
`Backend::handle_internal_signal` (backend.rs lines 178-205): run the
proving entry path, then unconditionally re-arm an internal recheck for
the key — unless the entry path panicked, in which case the panic
propagates before the re-arm is reached. -/
def dispatchProve (p : Pool) (request_key : RequestKey) : InternalOutcome × Pool × List Effect :=
  match prove p request_key with
  | (.panicked msg, p1, effs) => (.panicked msg, p1, effs)
  | (_, p1, effs) => (.normal, p1, effs ++ [Effect.spawnSignalRetryTask request_key])

/-- `Backend::handle_internal_signal` (backend.rs lines 175-233).
The `WorkInProgress` arm and the store-read-failure arm call
`ensure_internal_signal_after(key, 3s)` (lines 253-258), which awaits a
3-second timer *inline on the control-loop task* and then spawns the
retry-send task; hence their traces are a loop-side `sleepSeconds 3`
followed by `spawnSignalRetryTask`. -/
def handle_internal_signal (p : Pool) (request_key : RequestKey) :
    InternalOutcome × Pool × List Effect :=
  match p.get request_key with
  | (.ok (some (request_entity, status)), p1) =>
    match status with
    | .Registered =>
      match request_entity with
      | .SingleProof _ => dispatchProve p1 request_key
      | .Aggregation _ => dispatchProve p1 request_key
      | .BatchProof _ => dispatchProve p1 request_key
      | .GuestInput _ => dispatchProve p1 request_key
      | .BatchGuestInput _ => dispatchProve p1 request_key
    | .WorkInProgress =>
      (.normal, p1, [Effect.sleepSeconds 3, Effect.spawnSignalRetryTask request_key])
    | .Success _ | .Cancelled | .Failed _ => (.normal, p1, [])
  | (.ok none, p1) => (.normal, p1, [])
  | (.error _, p1) =>
    (.normal, p1, [Effect.sleepSeconds 3, Effect.spawnSignalRetryTask request_key])

/-- `Backend::halt` (backend.rs lines 535-538): a placeholder that
always succeeds. -/
def halt : Except String Unit := .ok ()

/-- One ready event of the three-way `tokio::select!` in `Backend::serve`
(backend.rs lines 80-111): an external command, an internal recheck
token, or a pause signal. -/
inductive LoopEvent where
  | command : Action → LoopEvent
  | internal : RequestKey → LoopEvent
  | pause : LoopEvent
deriving DecidableEq

/-- What one iteration of the control loop does to the loop itself. -/
inductive StepResult where
  | continued : StepResult
  | exited : StepResult
  | crashed : String → StepResult
deriving DecidableEq

/-- One iteration of `Backend::serve`'s loop (backend.rs lines 80-112).
`none` models the `else` branch of the select: all three channels are
permanently closed and empty, and the loop breaks.  A command is handled
by `handle_external_action`, then an internal recheck for its key is
unconditionally re-armed, then the reply is sent (a send error is
discarded).  An internal token is handled by `handle_internal_signal`;
a panic escaping that handler crashes the loop task.  A pause signal
invokes `halt`, logging a failure but keeping the loop alive. -/
def serve_step (engineCancelResp : Except String Unit) (p : Pool) (event : Option LoopEvent) :
    StepResult × Pool × List Effect :=
  match event with
  | none => (.exited, p, [])
  | some (.command action) =>
    let (_resp, p1, effs) := handle_external_action engineCancelResp p action
    (.continued, p1,
      effs ++ [Effect.spawnSignalRetryTask action.request_key, Effect.sendReply])
  | some (.internal request_key) =>
    match handle_internal_signal p request_key with
    | (.panicked msg, p1, effs) => (.crashed msg, p1, effs)
    | (.normal, p1, effs) => (.continued, p1, effs)
  | some .pause =>
    match halt with
    | .ok _ => (.continued, p, [])
    | .error _ => (.continued, p, [])

/-- Store effects (writes and adds) within an effect trace. -/
def isStoreWrite : Effect → Bool
  | .storeWrite _ _ => true
  | .storeAdd _ _ _ => true
  | _ => false

/-- The RFC 4648 standard base64 alphabet as character codes, the table
behind the external `base64` crate's `general_purpose::STANDARD` engine
used at backend.rs lines 790 and 821-823: `A`-`Z`, `a`-`z`, `0`-`9`,
`+`, `/`, with `=` (code 61) as the padding character. -/
def b64Alphabet : List Nat :=
  [65, 66, 67, 68, 69, 70, 71, 72, 73, 74, 75, 76, 77, 78, 79, 80, 81, 82, 83, 84,
   85, 86, 87, 88, 89, 90,
   97, 98, 99, 100, 101, 102, 103, 104, 105, 106, 107, 108, 109, 110, 111, 112,
   113, 114, 115, 116, 117, 118, 119, 120, 121, 122,
   48, 49, 50, 51, 52, 53, 54, 55, 56, 57,
   43, 47]

/-- Character code of a six-bit group. -/
def b64Char (s : Nat) : Nat := b64Alphabet.getD s 0

/-- Inverse lookup: six-bit value of a character code, `none` for a
character outside the alphabet. -/
def b64Index (c : Nat) : Option Nat := b64Alphabet.findIdx? (fun x => x == c)

/-- Base64 encoding of a byte sequence (bytes as naturals below 256),
standard alphabet with `=` padding, as produced by
`general_purpose::STANDARD.encode` at backend.rs line 790.  The result
is the character-code sequence of the encoded string. -/
def base64Encode : List Nat → List Nat
  | [] => []
  | [b0] => [b64Char (b0 / 4), b64Char (b0 % 4 * 16), 61, 61]
  | [b0, b1] => [b64Char (b0 / 4), b64Char (b0 % 4 * 16 + b1 / 16), b64Char (b1 % 16 * 4), 61]
  | b0 :: b1 :: b2 :: rest =>
    b64Char (b0 / 4) :: b64Char (b0 % 4 * 16 + b1 / 16) ::
      b64Char (b1 % 16 * 4 + b2 / 64) :: b64Char (b2 % 64) :: base64Encode rest

/-- Base64 decoding, standard alphabet with required `=` padding and
canonical (zero) trailing bits, as performed by
`general_purpose::STANDARD.decode` at backend.rs lines 821-823;
`none` models a decode error. -/
def base64Decode : List Nat → Option (List Nat)
  | [] => some []
  | c0 :: c1 :: c2 :: c3 :: rest =>
    match b64Index c0, b64Index c1 with
    | some s0, some s1 =>
      if c2 = 61 then
        if c3 = 61 then
          if rest = [] ∧ s1 % 16 = 0 then some [s0 * 4 + s1 / 16] else none
        else none
      else
        match b64Index c2 with
        | some s2 =>
          if c3 = 61 then
            if rest = [] ∧ s2 % 4 = 0 then
              some [s0 * 4 + s1 / 16, s1 % 16 * 16 + s2 / 4]
            else none
          else
            match b64Index c3, base64Decode rest with
            | some s3, some bs =>
              some ((s0 * 4 + s1 / 16) :: (s1 % 16 * 16 + s2 / 4) :: (s2 % 4 * 64 + s3) :: bs)
            | _, _ => none
        | none => none
    | _, _ => none
  | _ => none

/-- Tail of `do_generate_batch_guest_input` (backend.rs lines 787-799):
serialize the generated batch input with bincode, compress the bytes
with zlib, and base64-encode the compressed bytes into the proof
payload.  `bincodeSer` and `zlibCompress` are modelled from the spec as
parameters: `bincode::serialize` and
`raiko_lib::utils::zlib_compress_data` are external to `src/`
(`zlib_compress_data`'s `Result` is unwrapped at line 789, so
compression is modelled as total).  Bytes are naturals below 256; the
payload is the character-code sequence of the base64 string. -/
def generateBatchGuestInputPayload {α : Type} (bincodeSer : α → List Nat)
    (zlibCompress : List Nat → List Nat) (input : α) : List Nat :=
  base64Encode (zlibCompress (bincodeSer input))

/-- Result of the batch-guest-input decode branch: a decoded value, a
descriptive error, or a panic (backend.rs lines 821-823 call `.unwrap()`
on the base64 decode result). -/
inductive BatchDecodeResult (α : Type) where
  | ok : α → BatchDecodeResult α
  | err : String → BatchDecodeResult α
  | panicked : BatchDecodeResult α
deriving DecidableEq

/-- Decode branch of `do_prove_batch` (backend.rs lines 816-828):
base64-decode the persisted payload (panicking on failure, line 823),
zlib-decompress, and bincode-deserialize, mapping each codec failure to
the error string built at lines 825 and 827.  `bincodeDe` and
`zlibDecompress` are modelled from the spec as parameters, being
external to `src/`.  The `serde_json` value-to-string step at lines
817-820 is the identity on the payload string and is elided. -/
def decodeBatchGuestInput {α : Type} (bincodeDe : List Nat → Except String α)
    (zlibDecompress : List Nat → Except String (List Nat)) (payload : List Nat) :
    BatchDecodeResult α :=
  match base64Decode payload with
  | none => .panicked
  | some compressed =>
    match zlibDecompress compressed with
    | .error e => .err ("failed to decompress batch_guest_input: " ++ e)
    | .ok bytes =>
      match bincodeDe bytes with
      | .error e => .err ("failed to deserialize bincode batch_guest_input: " ++ e)
      | .ok v => .ok v

/-- A concrete single-proof request key used for concrete evaluations. -/
def spKeyA : SingleProofKey :=
  { chain_id := 1, block_number := 2, block_hash := 3, proof_type := 4 }

/-- The concrete request key wrapping `spKeyA`. -/
def keyA : RequestKey := RequestKey.SingleProof spKeyA

/-- A concrete request entity paired with `keyA`. -/
def entA : RequestEntity := RequestEntity.SingleProof 0

/-- A fault-free one-entry store holding `keyA` at the given status. -/
def poolA (s : Status) : Pool :=
  { entries := fun k => if k = keyA then some (entA, s) else none, faults := [] }

/-- Looking up the alphabet index of an encoded six-bit group recovers
the group. -/
theorem b64Index_b64Char : ∀ s : Nat, s < 64 → b64Index (b64Char s) = some s := by decide

/-- No six-bit group encodes to the padding character `=` (code 61). -/
theorem b64Char_ne_pad : ∀ s : Nat, s < 64 → b64Char s ≠ 61 := by decide

/-- Decoding an encoded byte sequence recovers the bytes (base64
round-trip over the standard alphabet with padding). -/
theorem base64_roundtrip :
    ∀ l : List Nat, (∀ b ∈ l, b < 256) → base64Decode (base64Encode l) = some l := by
  intro l
  induction l using base64Encode.induct with
  | case1 => intro _; rfl
  | case2 b0 =>
    intro h
    have hb0 : b0 < 256 := h b0 (by simp)
    have h0 := b64Index_b64Char (b0 / 4) (by omega)
    have h1 := b64Index_b64Char (b0 % 4 * 16) (by omega)
    have e1 : b0 % 4 * 16 % 16 = 0 := by omega
    have e0 : b0 / 4 * 4 + b0 % 4 * 16 / 16 = b0 := by omega
    simp [base64Encode, base64Decode, h0, h1, e1, e0]
    all_goals omega
  | case3 b0 b1 =>
    intro h
    have hb0 : b0 < 256 := h b0 (by simp)
    have hb1 : b1 < 256 := h b1 (by simp)
    have h0 := b64Index_b64Char (b0 / 4) (by omega)
    have h1 := b64Index_b64Char (b0 % 4 * 16 + b1 / 16) (by omega)
    have h2 := b64Index_b64Char (b1 % 16 * 4) (by omega)
    have hne2 := b64Char_ne_pad (b1 % 16 * 4) (by omega)
    have e2 : b1 % 16 * 4 % 4 = 0 := by omega
    have e0 : b0 / 4 * 4 + (b0 % 4 * 16 + b1 / 16) / 16 = b0 := by omega
    have e1 : (b0 % 4 * 16 + b1 / 16) % 16 * 16 + b1 % 16 * 4 / 4 = b1 := by omega
    simp [base64Encode, base64Decode, h0, h1, h2, hne2, e2, e0, e1]
    all_goals omega
  | case4 b0 b1 b2 rest ih =>
    intro h
    have hb0 : b0 < 256 := h b0 (by simp)
    have hb1 : b1 < 256 := h b1 (by simp)
    have hb2 : b2 < 256 := h b2 (by simp)
    have hrest : ∀ b ∈ rest, b < 256 := fun b hb => h b (by simp [hb])
    have h0 := b64Index_b64Char (b0 / 4) (by omega)
    have h1 := b64Index_b64Char (b0 % 4 * 16 + b1 / 16) (by omega)
    have h2 := b64Index_b64Char (b1 % 16 * 4 + b2 / 64) (by omega)
    have h3 := b64Index_b64Char (b2 % 64) (by omega)
    have hne2 := b64Char_ne_pad (b1 % 16 * 4 + b2 / 64) (by omega)
    have hne3 := b64Char_ne_pad (b2 % 64) (by omega)
    have e0 : b0 / 4 * 4 + (b0 % 4 * 16 + b1 / 16) / 16 = b0 := by omega
    have e1 : (b0 % 4 * 16 + b1 / 16) % 16 * 16 + (b1 % 16 * 4 + b2 / 64) / 4 = b1 := by omega
    have e2 : (b1 % 16 * 4 + b2 / 64) % 4 * 64 + b2 % 64 = b2 := by omega
    simp [base64Encode, base64Decode, h0, h1, h2, h3, hne2, hne3, ih hrest, e0, e1, e2]

/-- C10: serializing a batch guest input (bincode), compressing (zlib)
and base64-encoding it as done by `do_generate_batch_guest_input`, then
base64-decoding, decompressing and deserializing it as done by
`do_prove_batch`, yields a value equal to the original input.  The
external bincode and zlib codecs are spec-modelled parameters assumed,
pointwise at the encoded input, to invert each other and to produce
byte values below 256; the base64 layer is implemented concretely and
its round-trip proved above. -/
theorem c10_batch_guest_input_roundtrip {α : Type} (bincodeSer : α → List Nat)
    (bincodeDe : List Nat → Except String α) (zlibC : List Nat → List Nat)
    (zlibD : List Nat → Except String (List Nat)) (x : α)
    (hbin : bincodeDe (bincodeSer x) = Except.ok x)
    (hz : zlibD (zlibC (bincodeSer x)) = Except.ok (bincodeSer x))
    (hbytes : ∀ b ∈ zlibC (bincodeSer x), b < 256) :
    decodeBatchGuestInput bincodeDe zlibD
      (generateBatchGuestInputPayload bincodeSer zlibC x) = BatchDecodeResult.ok x := by
  simp [generateBatchGuestInputPayload, decodeBatchGuestInput,
    base64_roundtrip _ hbytes, hz, hbin]

/-- Witness for C10 at a concrete input and concrete (trivial but
law-abiding) stand-ins for the external codecs. -/
theorem c10_roundtrip_witness :
    decodeBatchGuestInput (fun l => Except.ok (l.headD 0)) (fun l => Except.ok l)
      (generateBatchGuestInputPayload (fun n : Nat => [n % 256]) (fun l => l) 7) =
      BatchDecodeResult.ok 7 :=
  c10_batch_guest_input_roundtrip (fun n : Nat => [n % 256])
    (fun l => Except.ok (l.headD 0)) (fun l => l) (fun l => Except.ok l) 7
    rfl rfl (by decide)

/-- The store used by the C1 evaluation: `keyA` is `Registered`, the
first store operation succeeds and the second fails transiently. -/
def c1Pool : Pool :=
  { entries := fun k => if k = keyA then some (entA, Status.Registered) else none,
    faults := [false, true] }

/-- C1: the claim says a store failure encountered while entering work
for a dispatched request does not terminate the loop; the code violates
it.  `Backend::prove` (backend.rs lines 441-446) calls
`.unwrap().unwrap()` on the status re-read, so when the recheck's own
read succeeds (status `Registered`) but the re-read fails transiently,
the handler panics and the actor task — the control loop — crashes.
The second conjunct records the claim's correct part: with all three
channels closed and empty the loop exits. -/
theorem c1_store_failure_crashes_loop :
    (serve_step (Except.ok ()) c1Pool (some (LoopEvent.internal keyA))).1 =
      StepResult.crashed "called Result.unwrap on an Err value: store read error" ∧
    (serve_step (Except.ok ()) c1Pool none).1 = StepResult.exited := by
  constructor
  · rfl
  · rfl

/-- C2 counterexample: the guard of `Backend::prove` (backend.rs line
447) aborts only on `Success` and `WorkInProgress`.  Entering work while
the status re-read observes `Cancelled` (which a concurrent
cancellation write can produce between the recheck's read and the
re-read) therefore writes `WorkInProgress`: the internal
recheck/proving path transitions a `Cancelled` request to
`WorkInProgress`, contradicting the claim. -/
theorem c2_cancelled_to_wip_counterexample :
    (prove (poolA Status.Cancelled) keyA).1 = ProveOutcome.started ∧
    (prove (poolA Status.Cancelled) keyA).2.1.entries keyA =
      some (entA, Status.WorkInProgress) := by
  constructor
  · rfl
  · rfl

/-- C2 amended: in a sequential, fault-free execution (no concurrent
store mutation between the recheck's read and any later operation) the
terminal statuses are preserved: a recheck that reads `Success`,
`Cancelled` or `Failed` issues no store operation and leaves the store
untouched; a recheck that reads `Registered` issues exactly one status
write, `WorkInProgress` (the Registered → WorkInProgress edge); and a
recheck that reads `WorkInProgress` issues no status write.  Outside
this sequential regime the guard of `Backend::prove` checks only
`Success` and `WorkInProgress`, so a `Cancelled`/`Failed` status
observed at the re-read is overwritten with `WorkInProgress` (see the
counterexample). -/
theorem c2_amended_terminal_sequential (p : Pool) (k : RequestKey) (e : RequestEntity)
    (s : Status) (hf : p.faults = []) (hk : p.entries k = some (e, s)) :
    ((s = Status.Cancelled ∨ (∃ m, s = Status.Failed m) ∨ (∃ pf, s = Status.Success pf)) →
      handle_internal_signal p k = (InternalOutcome.normal, p, [])) ∧
    (s = Status.Registered →
      (handle_internal_signal p k).2.2.filter isStoreWrite =
        [Effect.storeWrite k Status.WorkInProgress] ∧
      (handle_internal_signal p k).2.1.entries k = some (e, Status.WorkInProgress)) ∧
    (s = Status.WorkInProgress →
      (handle_internal_signal p k).2.2.filter isStoreWrite = []) := by
  have hpop : p.popFault = (false, p) := by simp [Pool.popFault, hf]
  have hget : p.get k = (Except.ok (some (e, s)), p) := by simp [Pool.get, hpop, hk]
  refine ⟨?_, ?_, ?_⟩
  · rintro (rfl | ⟨m, rfl⟩ | ⟨pf, rfl⟩) <;> simp [handle_internal_signal, hget]
  · rintro rfl
    have hgs : p.get_status k = (Except.ok (some Status.Registered), p) := by
      simp [Pool.get_status, hpop, hk]
    cases e <;>
      simp [handle_internal_signal, hget, dispatchProve, prove, hgs,
        Pool.update_status, hpop, isStoreWrite, hk]
  · rintro rfl
    simp [handle_internal_signal, hget, isStoreWrite]

/-- Witness for the C2 amended theorem: a fault-free store holding a
`Cancelled` entry is untouched by an internal recheck. -/
theorem c2_amended_witness :
    handle_internal_signal (poolA Status.Cancelled) keyA =
      (InternalOutcome.normal, poolA Status.Cancelled, []) :=
  (c2_amended_terminal_sequential (poolA Status.Cancelled) keyA entA Status.Cancelled
    rfl rfl).1 (Or.inl rfl)

/-- C3: cancelling a single-proof request whose status is
`WorkInProgress` invokes the engine's cancellation path keyed by the
key's chain id, block number, block hash and proof type (with the
proof-type discriminant also passed as its u8 cast); an engine error
whose message contains "No data for query" is treated like success; and
in both cases `Cancelled` is then written to the store and returned to
the caller (backend.rs lines 148-170, 278-335). -/
theorem c3_cancel_single_wip (er : Except String Unit) (p : Pool) (key : SingleProofKey)
    (e : RequestEntity) (hf : p.faults = [])
    (hk : p.entries (RequestKey.SingleProof key) = some (e, Status.WorkInProgress))
    (her : er = Except.ok () ∨
      ∃ m, er = Except.error m ∧ strContains m "No data for query" = true) :
    (handle_external_action er p (Action.Cancel (RequestKey.SingleProof key))).1 =
      Except.ok Status.Cancelled ∧
    (handle_external_action er p (Action.Cancel (RequestKey.SingleProof key))).2.2 =
      [Effect.engineCancel key.proof_type key.chain_id key.block_number key.block_hash
        (key.proof_type % 256),
       Effect.storeWrite (RequestKey.SingleProof key) Status.Cancelled] ∧
    (handle_external_action er p (Action.Cancel (RequestKey.SingleProof key))).2.1.entries
      (RequestKey.SingleProof key) = some (e, Status.Cancelled) := by
  have hpop : p.popFault = (false, p) := by simp [Pool.popFault, hf]
  have hgs : p.get_status (RequestKey.SingleProof key) =
      (Except.ok (some Status.WorkInProgress), p) := by
    simp [Pool.get_status, hpop, hk]
  rcases her with rfl | ⟨m, rfl, hm⟩
  · simp [handle_external_action, hgs, cancel, markCancelled, Pool.update_status, hpop, hk]
  · simp [handle_external_action, hgs, cancel, markCancelled, Pool.update_status, hpop, hm, hk]

/-- Witness for C3: a "No data for query" engine error is treated as
already-cancelled and `Cancelled` is still written and returned. -/
theorem c3_cancel_witness :
    (handle_external_action (Except.error "No data for query in db")
      (poolA Status.WorkInProgress) (Action.Cancel (RequestKey.SingleProof spKeyA))).1 =
      Except.ok Status.Cancelled ∧
    (handle_external_action (Except.error "No data for query in db")
      (poolA Status.WorkInProgress) (Action.Cancel (RequestKey.SingleProof spKeyA))).2.2 =
      [Effect.engineCancel spKeyA.proof_type spKeyA.chain_id spKeyA.block_number
        spKeyA.block_hash (spKeyA.proof_type % 256),
       Effect.storeWrite (RequestKey.SingleProof spKeyA) Status.Cancelled] ∧
    (handle_external_action (Except.error "No data for query in db")
      (poolA Status.WorkInProgress) (Action.Cancel (RequestKey.SingleProof spKeyA))).2.1.entries
      (RequestKey.SingleProof spKeyA) = some (entA, Status.Cancelled) :=
  c3_cancel_single_wip (Except.error "No data for query in db") (poolA Status.WorkInProgress)
    spKeyA entA rfl rfl (Or.inr ⟨"No data for query in db", rfl, by decide⟩)

/-- C4: if the spawned proving task's join resolves as a panic, the
supervising watcher (backend.rs lines 508-529) writes
`Failed{error: <fault message>}` to the store for the request key, so
the key's status is `Failed`, not `WorkInProgress`. -/
theorem c4_watcher_writes_failed (p : Pool) (k : RequestKey) (e : RequestEntity) (msg : String)
    (hf : p.faults = []) (hk : p.entries k = some (e, Status.WorkInProgress)) :
    (watcherTask (JoinOutcome.panicked msg) k p).2 =
      [Effect.storeWrite k (Status.Failed msg)] ∧
    (watcherTask (JoinOutcome.panicked msg) k p).1.entries k =
      some (e, Status.Failed msg) := by
  have hpop : p.popFault = (false, p) := by simp [Pool.popFault, hf]
  constructor
  · simp [watcherTask]
  · simp [watcherTask, Pool.update_status, hpop, hk]

/-- Witness for C4 at a concrete crashed task. -/
theorem c4_watcher_witness :
    (watcherTask (JoinOutcome.panicked "task panicked") keyA (poolA Status.WorkInProgress)).2 =
      [Effect.storeWrite keyA (Status.Failed "task panicked")] ∧
    (watcherTask (JoinOutcome.panicked "task panicked") keyA
      (poolA Status.WorkInProgress)).1.entries keyA =
      some (entA, Status.Failed "task panicked") :=
  c4_watcher_writes_failed (poolA Status.WorkInProgress) keyA entA "task panicked" rfl rfl

/-- C5: submitting `Prove` while the store holds the key at
`Registered`, `WorkInProgress` or `Success` returns the existing status
unchanged, performs no store write and leaves the store untouched
(backend.rs lines 127-131); consequently a second identical submission
returns the same status again, with no second entry created. -/
theorem c5_prove_idempotent (er : Except String Unit) (p : Pool) (k : RequestKey)
    (e0 e : RequestEntity) (s : Status) (hf : p.faults = []) (hk : p.entries k = some (e0, s))
    (hs : s = Status.Registered ∨ s = Status.WorkInProgress ∨ ∃ pf, s = Status.Success pf) :
    handle_external_action er p (Action.Prove k e) = (Except.ok s, p, []) ∧
    handle_external_action er (handle_external_action er p (Action.Prove k e)).2.1
      (Action.Prove k e) = (Except.ok s, p, []) := by
  have hpop : p.popFault = (false, p) := by simp [Pool.popFault, hf]
  have hgs : p.get_status k = (Except.ok (some s), p) := by
    simp [Pool.get_status, hpop, hk]
  have h1 : handle_external_action er p (Action.Prove k e) = (Except.ok s, p, []) := by
    rcases hs with rfl | rfl | ⟨pf, rfl⟩ <;> simp [handle_external_action, hgs]
  refine ⟨h1, ?_⟩
  rw [h1]
  exact h1

/-- Witness for C5 at a concrete `Registered` entry. -/
theorem c5_prove_idempotent_witness :
    handle_external_action (Except.ok ()) (poolA Status.Registered)
      (Action.Prove keyA entA) = (Except.ok Status.Registered, poolA Status.Registered, []) ∧
    handle_external_action (Except.ok ())
      (handle_external_action (Except.ok ()) (poolA Status.Registered)
        (Action.Prove keyA entA)).2.1 (Action.Prove keyA entA) =
      (Except.ok Status.Registered, poolA Status.Registered, []) :=
  c5_prove_idempotent (Except.ok ()) (poolA Status.Registered) keyA entA entA
    Status.Registered rfl rfl (Or.inl rfl)

/-- C6: submitting `Prove` while the store holds the key at `Cancelled`
or `Failed` re-registers: the entry is overwritten with the new entity
and a fresh `Registered` status, which is returned (backend.rs lines
132-139, 261-276); if the store write fails, the error is propagated to
the caller instead (the second pool `q`, whose write operation faults). -/
theorem c6_reregister_after_terminal (er : Except String Unit) (p q : Pool) (k : RequestKey)
    (e0 e : RequestEntity) (s : Status)
    (hf : p.faults = []) (hk : p.entries k = some (e0, s))
    (hqf : q.faults = [false, true]) (hqk : q.entries k = some (e0, s))
    (hs : s = Status.Cancelled ∨ ∃ m, s = Status.Failed m) :
    (handle_external_action er p (Action.Prove k e)).1 = Except.ok Status.Registered ∧
    (handle_external_action er p (Action.Prove k e)).2.1.entries k =
      some (e, Status.Registered) ∧
    (handle_external_action er p (Action.Prove k e)).2.2 =
      [Effect.storeAdd k e Status.Registered] ∧
    (handle_external_action er q (Action.Prove k e)).1 = Except.error "store write error" := by
  have hpop : p.popFault = (false, p) := by simp [Pool.popFault, hf]
  have hgs : p.get_status k = (Except.ok (some s), p) := by
    simp [Pool.get_status, hpop, hk]
  have hqgs : q.get_status k = (Except.ok (some s), { q with faults := [true] }) := by
    simp [Pool.get_status, Pool.popFault, hqf, hqk]
  rcases hs with rfl | ⟨m, rfl⟩ <;>
    simp [handle_external_action, hgs, hqgs, register, Pool.add, Pool.popFault, hf, hqf]

/-- Witness for C6 at a concrete `Cancelled` entry, with a faulting
store for the error-propagation part. -/
theorem c6_reregister_witness :
    (handle_external_action (Except.ok ()) (poolA Status.Cancelled)
      (Action.Prove keyA (RequestEntity.SingleProof 1))).1 = Except.ok Status.Registered ∧
    (handle_external_action (Except.ok ()) (poolA Status.Cancelled)
      (Action.Prove keyA (RequestEntity.SingleProof 1))).2.1.entries keyA =
      some (RequestEntity.SingleProof 1, Status.Registered) ∧
    (handle_external_action (Except.ok ()) (poolA Status.Cancelled)
      (Action.Prove keyA (RequestEntity.SingleProof 1))).2.2 =
      [Effect.storeAdd keyA (RequestEntity.SingleProof 1) Status.Registered] ∧
    (handle_external_action (Except.ok ())
      { poolA Status.Cancelled with faults := [false, true] }
      (Action.Prove keyA (RequestEntity.SingleProof 1))).1 =
      Except.error "store write error" :=
  c6_reregister_after_terminal (Except.ok ()) (poolA Status.Cancelled)
    { poolA Status.Cancelled with faults := [false, true] } keyA entA
    (RequestEntity.SingleProof 1) Status.Cancelled rfl rfl rfl rfl (Or.inl rfl)

/-- C7: entering work (`Backend::prove`, backend.rs lines 441-462)
re-reads the key's status.  If it is `Success` or `WorkInProgress` the
path aborts with no store write, no spawned task and no engine call; in
every other case it writes `WorkInProgress` and spawns the proving
task; and if that write fails (pool `q`, whose second operation faults)
it aborts without spawning any proving task, leaving the entry
unchanged. -/
theorem c7_prove_entry_guard (p q : Pool) (k : RequestKey) (e : RequestEntity) (s : Status)
    (hf : p.faults = []) (hk : p.entries k = some (e, s))
    (hqf : q.faults = [false, true]) (hqk : q.entries k = some (e, s)) :
    ((s = Status.WorkInProgress ∨ ∃ pf, s = Status.Success pf) →
      prove p k = (ProveOutcome.skipped, p, [])) ∧
    ((s ≠ Status.WorkInProgress ∧ ∀ pf, s ≠ Status.Success pf) →
      (prove p k).1 = ProveOutcome.started ∧
      (prove p k).2.1.entries k = some (e, Status.WorkInProgress) ∧
      (prove p k).2.2 = [Effect.storeWrite k Status.WorkInProgress,
        Effect.spawnProverTask k, Effect.spawnWatcherTask k, Effect.awaitPermitAcquired]) ∧
    ((s ≠ Status.WorkInProgress ∧ ∀ pf, s ≠ Status.Success pf) →
      (prove q k).1 = ProveOutcome.writeFailed ∧
      Effect.spawnProverTask k ∉ (prove q k).2.2 ∧
      (prove q k).2.1.entries k = some (e, s)) := by
  have hpop : p.popFault = (false, p) := by simp [Pool.popFault, hf]
  have hgs : p.get_status k = (Except.ok (some s), p) := by
    simp [Pool.get_status, hpop, hk]
  have hqgs : q.get_status k = (Except.ok (some s), { q with faults := [true] }) := by
    simp [Pool.get_status, Pool.popFault, hqf, hqk]
  refine ⟨?_, ?_, ?_⟩
  · rintro (rfl | ⟨pf, rfl⟩) <;> simp [prove, hgs]
  · rintro ⟨hw, hsc⟩
    cases s with
    | WorkInProgress => exact absurd rfl hw
    | Success pf => exact absurd rfl (hsc pf)
    | Registered =>
      simp [prove, hgs, Pool.update_status, hpop, hk]
    | Cancelled =>
      simp [prove, hgs, Pool.update_status, hpop, hk]
    | Failed m =>
      simp [prove, hgs, Pool.update_status, hpop, hk]
  · rintro ⟨hw, hsc⟩
    cases s with
    | WorkInProgress => exact absurd rfl hw
    | Success pf => exact absurd rfl (hsc pf)
    | Registered =>
      simp [prove, hqgs, Pool.update_status, Pool.popFault, hqk]
    | Cancelled =>
      simp [prove, hqgs, Pool.update_status, Pool.popFault, hqk]
    | Failed m =>
      simp [prove, hqgs, Pool.update_status, Pool.popFault, hqk]

/-- Witness for C7: a `Success` entry is skipped untouched, and with a
faulting status write the `Registered` entry is left unchanged with no
proving task spawned. -/
theorem c7_prove_entry_witness :
    prove (poolA (Status.Success "pf")) keyA =
      (ProveOutcome.skipped, poolA (Status.Success "pf"), []) ∧
    (prove { poolA Status.Registered with faults := [false, true] } keyA).1 =
      ProveOutcome.writeFailed ∧
    Effect.spawnProverTask keyA ∉
      (prove { poolA Status.Registered with faults := [false, true] } keyA).2.2 :=
  have h1 := c7_prove_entry_guard (poolA (Status.Success "pf"))
    { poolA (Status.Success "pf") with faults := [false, true] } keyA entA
    (Status.Success "pf") rfl rfl rfl rfl
  have h2 := c7_prove_entry_guard (poolA Status.Registered)
    { poolA Status.Registered with faults := [false, true] } keyA entA
    Status.Registered rfl rfl rfl rfl
  have h2' := h2.2.2 ⟨by simp, fun pf => by simp⟩
  ⟨h1.1 (Or.inr ⟨"pf", rfl⟩), h2'.1, h2'.2.1⟩

/-- C8 counterexample: the claim says the 3-second backoff of a
`WorkInProgress` recheck does not block the actor control loop, but
`ensure_internal_signal_after` (backend.rs lines 253-258) awaits its
timer inline inside `handle_internal_signal`, which `Backend::serve`
awaits to completion on the loop task — so the loop-side effect trace
of a `WorkInProgress` recheck contains the 3-second sleep, and the loop
processes no other event while it elapses. -/
theorem c8_backoff_blocks_loop_counterexample :
    Effect.sleepSeconds 3 ∈
      (handle_internal_signal (poolA Status.WorkInProgress) keyA).2.2 := by decide

/-- C8 amended: a recheck that finds the request `WorkInProgress`
re-arms a recheck token for the key after a fixed 3-second backoff, but
that backoff is awaited inline on the control-loop task (only the
subsequent retry-send runs as a spawned task): the handler's loop-side
trace is exactly the 3-second sleep followed by spawning the
signal-retry task, with no store write. -/
theorem c8_amended_backoff_inline (p : Pool) (k : RequestKey) (e : RequestEntity)
    (hf : p.faults = []) (hk : p.entries k = some (e, Status.WorkInProgress)) :
    handle_internal_signal p k =
      (InternalOutcome.normal, p,
       [Effect.sleepSeconds 3, Effect.spawnSignalRetryTask k]) := by
  have hpop : p.popFault = (false, p) := by simp [Pool.popFault, hf]
  have hget : p.get k = (Except.ok (some (e, Status.WorkInProgress)), p) := by
    simp [Pool.get, hpop, hk]
  simp [handle_internal_signal, hget]

/-- Witness for the C8 amended theorem at a concrete store. -/
theorem c8_amended_witness :
    handle_internal_signal (poolA Status.WorkInProgress) keyA =
      (InternalOutcome.normal, poolA Status.WorkInProgress,
       [Effect.sleepSeconds 3, Effect.spawnSignalRetryTask keyA]) :=
  c8_amended_backoff_inline (poolA Status.WorkInProgress) keyA entA rfl rfl

/-- C9 counterexample: the claim says admission-gate acquisition
suspends only the spawned proving task and never the control loop, but
`Backend::prove` ends with `semaphore_acquired_rx.await` (backend.rs
lines 531-532), executed on the control-loop task and resolved only
once the spawned task holds a permit — so the loop-side trace of
dispatching a `Registered` request contains the wait for permit
acquisition, and a saturated gate suspends the loop. -/
theorem c9_loop_waits_for_permit_counterexample :
    Effect.awaitPermitAcquired ∈ (prove (poolA Status.Registered) keyA).2.2 := by decide

/-- C9 amended: the control loop never runs the Proof Engine inline —
the engine call happens inside the spawned proving task, strictly after
that task has acquired an admission-gate permit and signalled the
acquisition — but the dispatching path does wait, on the loop task, for
that acquisition signal, so a saturated gate suspends the control loop
dispatching the request (not only the spawned task). -/
theorem c9_amended_dispatch_waits_for_permit (p : Pool) (k : RequestKey) (e : RequestEntity)
    (er : Except String String)
    (hf : p.faults = []) (hk : p.entries k = some (e, Status.Registered)) :
    (prove p k).2.2 = [Effect.storeWrite k Status.WorkInProgress, Effect.spawnProverTask k,
      Effect.spawnWatcherTask k, Effect.awaitPermitAcquired] ∧
    (∀ k', Effect.engineProve k' ∉ (prove p k).2.2) ∧
    (proverTask er k (prove p k).2.1).2 =
      [Effect.acquirePermit, Effect.signalPermitAcquired, Effect.engineProve k,
       Effect.storeWrite k (provenStatus er)] := by
  have hpop : p.popFault = (false, p) := by simp [Pool.popFault, hf]
  have hgs : p.get_status k = (Except.ok (some Status.Registered), p) := by
    simp [Pool.get_status, hpop, hk]
  refine ⟨?_, ?_, ?_⟩
  · simp [prove, hgs, Pool.update_status, hpop]
  · intro k'
    simp [prove, hgs, Pool.update_status, hpop]
  · simp [proverTask]

/-- Witness for the C9 amended theorem at a concrete store and a
successful engine result. -/
theorem c9_amended_witness :
    (prove (poolA Status.Registered) keyA).2.2 =
      [Effect.storeWrite keyA Status.WorkInProgress, Effect.spawnProverTask keyA,
       Effect.spawnWatcherTask keyA, Effect.awaitPermitAcquired] ∧
    Effect.engineProve keyA ∉ (prove (poolA Status.Registered) keyA).2.2 ∧
    (proverTask (Except.ok "pf") keyA (prove (poolA Status.Registered) keyA).2.1).2 =
      [Effect.acquirePermit, Effect.signalPermitAcquired, Effect.engineProve keyA,
       Effect.storeWrite keyA (provenStatus (Except.ok "pf"))] :=
  have h := c9_amended_dispatch_waits_for_permit (poolA Status.Registered) keyA entA
    (Except.ok "pf") rfl rfl
  ⟨h.1, h.2.1 keyA, h.2.2⟩

end Raiko
